import Mathlib

/-!
Shallow embedding of the extractive / FAQ question-answering pipeline
specified for the haystack tutorial repository.  The repository itself
ships only tutorial notebooks (usage examples); the core components
(Retriever, Reader, FAQ Matcher, Pipeline, Result Formatter) are not part
of the supplied sources, so every definition below is modelled from the
specification text, as the doc comments record.
-/

/-- Modelled from the spec: the error taxonomy of §7 (the code of the core
components is missing from the sources; only the notebooks that call them
are present). -/
inductive QAError where
  | storeUnavailable
  | embeddingDimensionMismatch
  | readerExhausted
  | missingAnswerField
  | deadlineExceeded
deriving DecidableEq, Repr

/-- Modelled from the spec: a Document (§3) — unique identifier, text body,
and, for FAQ entries, the pre-stored answer field (absent on plain
documents).  The free-form metadata map and the optional embedding vector
play no role in any claim and are not modelled. -/
structure Document where
  id : String
  text : String
  answer : Option String
deriving DecidableEq, Repr

/-- Modelled from the spec: a Candidate (§3) — a (Document, relevance_score)
pair produced by the Retriever.  Scores are modelled as rationals. -/
structure Candidate where
  doc : Document
  score : Rat
deriving DecidableEq, Repr

/-- Modelled from the spec: an Answer (§3) — answer text (may be empty to
denote "no answer found"), confidence, source document identifier, context
snippet, and optional character offsets. -/
structure Answer where
  text : String
  confidence : Rat
  documentId : String
  context : String
  offsets : Option (Nat × Nat)
deriving DecidableEq, Repr

/-- Modelled from the spec: the backing Document Store (§6), an external
collaborator — reachable or not, and when reachable a list of documents
together with the relevance function the store evaluates for a query. -/
structure Store where
  unreachable : Bool
  docs : List Document
  relevance : String → Document → Rat

namespace Retriever

/-- Modelled from the spec: the Candidate ordering of §3/§4.1 —
descending by score, ties broken by lexicographic document identifier
(lexicographic comparison of the identifier's character sequence). -/
def candOrder (a b : Candidate) : Prop :=
  b.score < a.score ∨ (a.score = b.score ∧ a.doc.id.data ≤ b.doc.id.data)

/-- The strict version of `Retriever.candOrder`: strictly descending by
score with a strict lexicographic identifier tie-break. -/
def candOrderStrict (a b : Candidate) : Prop :=
  b.score < a.score ∨ (a.score = b.score ∧ a.doc.id.data < b.doc.id.data)

instance : DecidableRel candOrder := fun a b => by
  unfold candOrder; infer_instance

instance : IsTotal Candidate candOrder := by
  constructor
  intro a b
  rcases lt_trichotomy a.score b.score with h | h | h
  · exact Or.inr (Or.inl h)
  · rcases le_total a.doc.id.data b.doc.id.data with h' | h'
    · exact Or.inl (Or.inr ⟨h, h'⟩)
    · exact Or.inr (Or.inr ⟨h.symm, h'⟩)
  · exact Or.inl (Or.inl h)

instance : IsTrans Candidate candOrder := by
  constructor
  intro a b c hab hbc
  rcases hab with hab | ⟨hab, hab'⟩
  · rcases hbc with hbc | ⟨hbc, _⟩
    · exact Or.inl (lt_trans hbc hab)
    · exact Or.inl (hbc ▸ hab)
  · rcases hbc with hbc | ⟨hbc, hbc'⟩
    · exact Or.inl (hab ▸ hbc)
    · exact Or.inr ⟨hab.trans hbc, le_trans hab' hbc'⟩

/-- Modelled from the spec: `retrieve(query_text, candidate_limit)` (§4.1) —
if the backing store is unreachable it fails with `StoreUnavailable`;
otherwise every stored document is scored by the store's relevance
function, the candidates are ordered descending by score with the
identifier tie-break, and the first `candidate_limit` are returned. -/
def retrieve (store : Store) (q : String) (candidateLimit : Nat) :
    Except QAError (List Candidate) :=
  if store.unreachable then .error .storeUnavailable
  else .ok ((List.insertionSort candOrder
    (store.docs.map (fun d => ⟨d, store.relevance q d⟩))).take candidateLimit)

end Retriever

/-- Modelled from the spec: a per-passage proposal of the external Scoring
Model (§4.2/§6) — zero or more `(span_start, span_end, confidence)` span
proposals plus an explicit "no answer" proposal with its own confidence. -/
inductive SpanProposal where
  | span (start stop : Nat) (confidence : Rat)
  | noAnswer (confidence : Rat)
deriving DecidableEq, Repr

/-- Modelled from the spec: the injected scoring model abstraction (§4.2).
`none` models the scoring model failing for a passage; `some ps` is its
list of proposals for the passage. -/
def ScoringModel : Type := String → String → Option (List SpanProposal)

namespace Reader

/-- The answer text extracted for the character span `[a, b)` of `s`. -/
def extractSpan (s : String) (a b : Nat) : String := (s.drop a).take (b - a)

/-- Modelled from the spec: the Answer built from one proposal on one
candidate passage (§3/§4.2) — extractive answers carry their character
offsets, a "no answer" proposal yields empty answer text with absent
offsets, and the context snippet is the passage text. -/
def answerOf (c : Candidate) : SpanProposal → Answer
  | .span a b conf =>
      ⟨extractSpan c.doc.text a b, conf, c.doc.id, c.doc.text, some (a, b)⟩
  | .noAnswer conf => ⟨"", conf, c.doc.id, c.doc.text, none⟩

/-- A pooled proposal: the Answer it would produce together with the rank
of the candidate passage it came from (0 = earliest retrieved). -/
structure Pooled where
  ans : Answer
  rank : Nat
deriving DecidableEq, Repr

/-- The span start offset used as the last tie-break; a "no answer" entry
has no span and sorts at offset 0. -/
def startOf (p : Pooled) : Nat :=
  match p.ans.offsets with
  | some (a, _) => a
  | none => 0

/-- Modelled from the spec: the per-passage scoring task (§4.2/§5) — the
result of invoking the scoring model on the candidate passage of rank
`i`; `none` when the model fails for that passage (or `i` is out of
range). -/
def taskResult (m : ScoringModel) (q : String) (cs : List Candidate)
    (i : Nat) : Option (List SpanProposal) :=
  match cs[i]? with
  | none => none
  | some c => m q c.doc.text

/-- The pooled entries contributed by the passage of rank `i` given its
scoring result: one entry per proposal, tagged with the rank; a failed
passage contributes nothing (its proposals are dropped, §4.2). -/
def contribution (cs : List Candidate) (i : Nat) :
    Option (List SpanProposal) → List Pooled
  | none => []
  | some ps =>
    match cs[i]? with
    | none => []
    | some c => ps.map (fun pr => ⟨answerOf c pr, i⟩)

/-- Modelled from the spec: the pool of §4.2 — all proposals across all
candidates, each tagged with its candidate's rank; a passage on which the
scoring model fails contributes nothing. -/
def pool (m : ScoringModel) (q : String) (cs : List Candidate) : List Pooled :=
  (List.range cs.length).flatMap (fun i =>
    contribution cs i (taskResult m q cs i))

/-- Modelled from the spec: the global ranking of §4.2 — confidence
descending, ties broken by candidate rank (earlier-retrieved passage
wins), then by span start offset. -/
def rankOrder (p r : Pooled) : Prop :=
  r.ans.confidence < p.ans.confidence ∨ (p.ans.confidence = r.ans.confidence ∧
    (p.rank < r.rank ∨ (p.rank = r.rank ∧ startOf p ≤ startOf r)))

instance : DecidableRel rankOrder := fun p r => by
  unfold rankOrder; infer_instance

instance : IsTotal Pooled rankOrder := by
  constructor
  intro p r
  rcases lt_trichotomy p.ans.confidence r.ans.confidence with h | h | h
  · exact Or.inr (Or.inl h)
  · rcases Nat.lt_trichotomy p.rank r.rank with h2 | h2 | h2
    · exact Or.inl (Or.inr ⟨h, Or.inl h2⟩)
    · rcases Nat.le_total (startOf p) (startOf r) with h3 | h3
      · exact Or.inl (Or.inr ⟨h, Or.inr ⟨h2, h3⟩⟩)
      · exact Or.inr (Or.inr ⟨h.symm, Or.inr ⟨h2.symm, h3⟩⟩)
    · exact Or.inr (Or.inr ⟨h.symm, Or.inl h2⟩)
  · exact Or.inl (Or.inl h)

instance : IsTrans Pooled rankOrder := by
  constructor
  intro a b c hab hbc
  rcases hab with hab | ⟨e1, hab⟩
  · rcases hbc with hbc | ⟨e2, _⟩
    · exact Or.inl (lt_trans hbc hab)
    · exact Or.inl (lt_of_eq_of_lt e2.symm hab)
  · rcases hbc with hbc | ⟨e2, hbc⟩
    · exact Or.inl (lt_of_lt_of_eq hbc e1.symm)
    · refine Or.inr ⟨e1.trans e2, ?_⟩
      rcases hab with hab | ⟨f1, hab⟩ <;> rcases hbc with hbc | ⟨f2, hbc⟩ <;> omega

/-- Modelled from the spec: `read(query_text, candidates, answer_limit)`
(§4.2) — each candidate passage is scored by the injected model, failed
passages are dropped, surviving proposals are pooled and globally ranked,
and the top `answer_limit` entries are returned; if the candidate sequence
is non-empty and every passage fails, fails with `ReaderExhausted`. -/
def read (m : ScoringModel) (q : String) (cs : List Candidate)
    (answerLimit : Nat) : Except QAError (List Answer) :=
  if cs ≠ [] ∧ ∀ c ∈ cs, m q c.doc.text = none then .error .readerExhausted
  else .ok
    (((List.insertionSort rankOrder (pool m q cs)).take answerLimit).map Pooled.ans)

end Reader

namespace FAQMatcher

/-- Modelled from the spec: `match(query_text, candidates, answer_limit)`
(§4.3) — if any candidate lacks the pre-stored answer field it fails with
`MissingAnswerField` before producing any answers; otherwise it produces
one Answer per candidate in the Retriever's order, truncated to
`answer_limit`, with confidence copied from the candidate's relevance
score and offsets always absent. -/
def faqMatch (q : String) (cs : List Candidate) (answerLimit : Nat) :
    Except QAError (List Answer) :=
  if ∀ c ∈ cs, c.doc.answer.isSome then
    .ok ((cs.take answerLimit).map (fun c =>
      ⟨c.doc.answer.getD "", c.score, c.doc.id, c.doc.text, none⟩))
  else .error .missingAnswerField

end FAQMatcher

/-- Modelled from the spec: the Answering stage the Pipeline was
constructed with (§3/§4.4) — an extractive Reader carrying its injected
scoring model, or the FAQ Matcher. -/
inductive Answerer where
  | extractive (m : ScoringModel)
  | faq

/-- The two non-terminal working states of the Pipeline state machine
(§4.4), recorded as the trace of invoked stages. -/
inductive Stage where
  | retrieving
  | answering
deriving DecidableEq, Repr

/-- Modelled from the spec: the terminal state of one `run` (§4.4) — Done
with the final Answer sequence, or Failed with the propagated error. -/
inductive RunOutcome where
  | done (answers : List Answer)
  | failed (e : QAError)
deriving DecidableEq, Repr

/-- Modelled from the spec: a Pipeline (§3/§4.4) — the fixed two-stage
composition of a Retriever over a backing store and an Answering stage;
it holds no per-query mutable state. -/
structure Pipeline where
  store : Store
  answerer : Answerer

namespace Pipeline

/-- The Answering stage dispatch: `Reader.read` or `FAQMatcher.faqMatch`,
whichever the Pipeline was constructed with (§4.4). -/
def answerStage (a : Answerer) (q : String) (cs : List Candidate)
    (ka : Nat) : Except QAError (List Answer) :=
  match a with
  | .extractive m => Reader.read m q cs ka
  | .faq => FAQMatcher.faqMatch q cs ka

/-- Modelled from the spec: the Pipeline state machine of §4.4 — Idle →
Retrieving (invoke `retrieve`; on failure → Failed propagating the error
unchanged, without entering the Answering stage) → Answering (invoke the
Answering stage; on failure → Failed propagating the error unchanged) →
Done.  Returns the terminal outcome together with the trace of stages
that were invoked. -/
def runTrace (p : Pipeline) (q : String) (kc ka : Nat) :
    RunOutcome × List Stage :=
  match Retriever.retrieve p.store q kc with
  | .error e => (.failed e, [.retrieving])
  | .ok cs =>
    match answerStage p.answerer q cs ka with
    | .error e => (.failed e, [.retrieving, .answering])
    | .ok as => (.done as, [.retrieving, .answering])

/-- Modelled from the spec: `run(query_text, candidate_limit,
answer_limit)` (§4.4/§6) — the terminal outcome of the state machine. -/
def run (p : Pipeline) (q : String) (kc ka : Nat) : RunOutcome :=
  (runTrace p q kc ka).1

end Pipeline

/-- Modelled from the spec: the predefined extractive pipeline of the
tutorial (`ExtractiveQAPipeline(reader, retriever)`) — the extractive
Reader requires only raw text, so construction always succeeds. -/
def ExtractiveQAPipeline (m : ScoringModel) (store : Store) : Pipeline :=
  ⟨store, .extractive m⟩

/-- Modelled from the spec: the FAQ pipeline of the tutorial
(`FAQPipeline(retriever=retriever)`) — construction performs the
compatibility check of §3: the FAQ Matcher requires candidates carrying a
pre-stored answer field, so a store holding a document without one is
rejected with `MissingAnswerField` at construction time. -/
def FAQPipeline (store : Store) : Except QAError Pipeline :=
  if ∀ d ∈ store.docs, d.answer.isSome then .ok ⟨store, .faq⟩
  else .error .missingAnswerField

/-- Modelled from the spec: the two detail levels of the Result Formatter
(§4.5). -/
inductive DetailLevel where
  | minimal
  | all
deriving DecidableEq, Repr

namespace Formatter

/-- Rendering of the optional character offsets. -/
def renderOffsets : Option (Nat × Nat) → String
  | some (a, b) => "(" ++ toString a ++ ", " ++ toString b ++ ")"
  | none => "absent"

/-- Modelled from the spec: the rendering of one Answer (§4.5) — `minimal`
renders answer text and context snippet only; `all` additionally renders
confidence, source document identifier, and offsets. -/
def renderAnswer (d : DetailLevel) (a : Answer) : String :=
  match d with
  | .minimal => "answer: " ++ a.text ++ "; context: " ++ a.context
  | .all =>
      "answer: " ++ a.text ++ "; context: " ++ a.context ++
      "; confidence: " ++ toString a.confidence ++
      "; document: " ++ a.documentId ++
      "; offsets: " ++ renderOffsets a.offsets

/-- Modelled from the spec: the pure Result Formatter
`format(answers, detail_level)` (§4.5), the `print_answers` helper the
notebooks call. -/
def format (answers : List Answer) (d : DetailLevel) : String :=
  String.intercalate "; " (answers.map (renderAnswer d))

end Formatter

namespace Reader

/-- Modelled from the spec (§5): the log of parallel per-passage scoring
tasks in the order they completed — `order` lists the candidate ranks in
completion order, and each entry records the rank with its result. -/
def completionLog (m : ScoringModel) (q : String) (cs : List Candidate)
    (order : List Nat) : List (Nat × Option (List SpanProposal)) :=
  order.map (fun i => (i, taskResult m q cs i))

/-- Modelled from the spec (§5): the pool assembled after parallel
scoring — for each candidate rank, the aggregator looks the rank's result
up in the completion log and pools its contribution, so the pool is built
in candidate order however the tasks completed. -/
def gatherPool (m : ScoringModel) (q : String) (cs : List Candidate)
    (order : List Nat) : List Pooled :=
  (List.range cs.length).flatMap (fun i =>
    match List.lookup i (completionLog m q cs order) with
    | some r => contribution cs i r
    | none => [])

/-- Modelled from the spec (§5): `read` with the per-passage scoring run
in parallel, the tasks completing in the order given by `order`. -/
def parallelRead (m : ScoringModel) (q : String) (cs : List Candidate)
    (answerLimit : Nat) (order : List Nat) : Except QAError (List Answer) :=
  if cs ≠ [] ∧ ∀ c ∈ cs, m q c.doc.text = none then .error .readerExhausted
  else .ok
    (((List.insertionSort rankOrder (gatherPool m q cs order)).take
      answerLimit).map Pooled.ans)

end Reader

/-- Modelled from the spec: the well-formedness assumption on the external
scoring model that the Answer invariant of §3 presupposes — a span
proposal denotes an extracted answer, a contiguous character range of the
passage whose extracted text is non-empty (empty answer text is reserved
for the "no answer" proposal). -/
def ValidModel (m : ScoringModel) : Prop :=
  ∀ q passage ps, m q passage = some ps →
    ∀ a b conf, SpanProposal.span a b conf ∈ ps →
      Reader.extractSpan passage a b ≠ ""

/-- C2: for every query and candidate_limit k ≥ 1, `Retriever.retrieve` on
a reachable store with unique document identifiers returns an ordered
candidate sequence of length at most k, empty exactly when the backing
store is empty, strictly descending by score with the deterministic
lexicographic identifier tie-break, and containing no duplicate document
identifiers. -/
theorem C2_retrieve_spec (store : Store) (q : String) (k : Nat)
    (hreach : store.unreachable = false)
    (hnodup : (store.docs.map Document.id).Nodup) (hk : 1 ≤ k) :
    ∃ cs, Retriever.retrieve store q k = .ok cs ∧
      cs.length ≤ k ∧
      (cs = [] ↔ store.docs = []) ∧
      cs.Pairwise Retriever.candOrderStrict ∧
      (cs.map (fun c => c.doc.id)).Nodup := by
  set scored : List Candidate :=
    store.docs.map (fun d => ⟨d, store.relevance q d⟩) with hscored
  set sorted : List Candidate :=
    List.insertionSort Retriever.candOrder scored with hsorted
  refine ⟨sorted.take k, ?_, ?_, ?_, ?_, ?_⟩
  · simp [Retriever.retrieve, hreach, hsorted, hscored]
  · exact List.length_take_le k sorted
  · rw [List.take_eq_nil_iff]
    constructor
    · rintro (h | h)
      · omega
      · have hlen := List.length_insertionSort Retriever.candOrder scored
        rw [← hsorted] at hlen
        rw [h] at hlen
        simp only [List.length_nil] at hlen
        have : scored.length = 0 := hlen.symm
        rw [hscored, List.length_map] at this
        exact List.length_eq_zero.mp this
    · intro h
      right
      have : scored = [] := by rw [hscored, h]; simp
      rw [hsorted, this]
      simp
  · have hsort : sorted.Pairwise Retriever.candOrder := by
      rw [hsorted]
      exact List.sorted_insertionSort Retriever.candOrder scored
    have hperm : sorted.Perm scored := by
      rw [hsorted]
      exact List.perm_insertionSort Retriever.candOrder scored
    have hids : (sorted.map (fun c => c.doc.id)).Nodup := by
      refine ((hperm.map (fun c => c.doc.id)).nodup_iff).mpr ?_
      have : scored.map (fun c : Candidate => c.doc.id)
          = store.docs.map Document.id := by
        rw [hscored, List.map_map]; rfl
      rw [this]; exact hnodup
    have hne : sorted.Pairwise (fun a b : Candidate => a.doc.id ≠ b.doc.id) := by
      exact (List.pairwise_map).mp hids
    have hcomb := hsort.and hne
    have hstrict : sorted.Pairwise Retriever.candOrderStrict := by
      refine hcomb.imp ?_
      rintro a b ⟨hab, hne'⟩
      rcases hab with h | ⟨h, h'⟩
      · exact Or.inl h
      · refine Or.inr ⟨h, lt_of_le_of_ne h' ?_⟩
        intro hd
        exact hne' (String.ext hd)
    exact hstrict.sublist (List.take_sublist k sorted)
  · have hsort : sorted.Pairwise Retriever.candOrder := by
      rw [hsorted]
      exact List.sorted_insertionSort Retriever.candOrder scored
    have hperm : sorted.Perm scored := by
      rw [hsorted]
      exact List.perm_insertionSort Retriever.candOrder scored
    have hids : (sorted.map (fun c => c.doc.id)).Nodup := by
      refine ((hperm.map (fun c => c.doc.id)).nodup_iff).mpr ?_
      have : scored.map (fun c : Candidate => c.doc.id)
          = store.docs.map Document.id := by
        rw [hscored, List.map_map]; rfl
      rw [this]; exact hnodup
    exact hids.sublist ((List.take_sublist k sorted).map _)

/-- Witness for C2: the retriever postconditions evaluated on a concrete
two-document store with tied relevance scores. -/
theorem C2_retrieve_spec_witness :
    ∃ cs, Retriever.retrieve
        ⟨false, [⟨"d2", "t2", none⟩, ⟨"d1", "t1", none⟩], fun _ _ => 1⟩ "q" 2
        = .ok cs ∧
      cs.length ≤ 2 ∧
      (cs = [] ↔ ([⟨"d2", "t2", none⟩, ⟨"d1", "t1", none⟩] :
        List Document) = []) ∧
      cs.Pairwise Retriever.candOrderStrict ∧
      (cs.map (fun c => c.doc.id)).Nodup :=
  C2_retrieve_spec ⟨false, [⟨"d2", "t2", none⟩, ⟨"d1", "t1", none⟩],
    fun _ _ => 1⟩ "q" 2 rfl (by decide) (by decide)

/-- The successful branch of `Reader.read`: the result is the image of the
top `answerLimit` entries of the globally ranked pool. -/
theorem Reader.read_eq_ok (m : ScoringModel) (q : String)
    (cs : List Candidate) (k : Nat) (as : List Answer)
    (h : Reader.read m q cs k = .ok as) :
    as = ((List.insertionSort Reader.rankOrder (Reader.pool m q cs)).take
      k).map Reader.Pooled.ans := by
  unfold Reader.read at h
  split at h
  · cases h
  · exact (Except.ok.inj h).symm

/-- Membership in the Reader's pool: exactly the proposals of passages the
scoring model succeeded on, tagged with their candidate rank. -/
theorem Reader.mem_pool_iff (m : ScoringModel) (q : String)
    (cs : List Candidate) (p : Reader.Pooled) :
    p ∈ Reader.pool m q cs ↔
      ∃ i c ps, cs[i]? = some c ∧ m q c.doc.text = some ps ∧
        ∃ pr ∈ ps, p = ⟨Reader.answerOf c pr, i⟩ := by
  unfold Reader.pool
  rw [List.mem_flatMap]
  constructor
  · rintro ⟨i, hi, hp⟩
    cases hcs : cs[i]? with
    | none => simp [Reader.taskResult, Reader.contribution, hcs] at hp
    | some c =>
      cases hm : m q c.doc.text with
      | none => simp [Reader.taskResult, Reader.contribution, hcs, hm] at hp
      | some ps =>
        simp only [Reader.taskResult, Reader.contribution, hcs, hm,
          List.mem_map] at hp
        rcases hp with ⟨pr, hpr, hpe⟩
        exact ⟨i, c, ps, hcs, hm, pr, hpr, hpe.symm⟩
  · rintro ⟨i, c, ps, hcs, hm, pr, hpr, rfl⟩
    refine ⟨i, ?_, ?_⟩
    · rw [List.mem_range]
      rcases List.getElem?_eq_some.mp hcs with ⟨hlt, _⟩
      exact hlt
    · simp only [Reader.taskResult, Reader.contribution, hcs, hm,
        List.mem_map]
      exact ⟨pr, hpr, rfl⟩

/-- C1: for every query, candidate sequence and positive answer_limit k,
a successful `Reader.read` returns the image of the first k entries of a
global ranking of the pooled proposals — a permutation of the pool sorted
by confidence descending with the candidate-rank and span-start
tie-breaks — so its length is at most k and at most the number of pooled
proposals. -/
theorem C1_read_pools_and_ranks (m : ScoringModel) (q : String)
    (cs : List Candidate) (k : Nat) (hk : 0 < k) (as : List Answer)
    (h : Reader.read m q cs k = .ok as) :
    as.length ≤ k ∧ as.length ≤ (Reader.pool m q cs).length ∧
    ∃ ranked : List Reader.Pooled,
      ranked.Perm (Reader.pool m q cs) ∧ ranked.Pairwise Reader.rankOrder ∧
      as = (ranked.take k).map Reader.Pooled.ans := by
  have has := Reader.read_eq_ok m q cs k as h
  refine ⟨?_, ?_, List.insertionSort Reader.rankOrder (Reader.pool m q cs),
    List.perm_insertionSort Reader.rankOrder (Reader.pool m q cs),
    List.sorted_insertionSort Reader.rankOrder (Reader.pool m q cs), has⟩
  · rw [has, List.length_map]
    exact List.length_take_le ..
  · rw [has, List.length_map, List.length_take,
      List.length_insertionSort]
    exact min_le_right ..

/-- Witness for C1: the Reader evaluated on one candidate whose passage
yields a single "no answer" proposal, with answer_limit 1. -/
theorem C1_read_pools_and_ranks_witness :
    [Answer.mk "" 1 "d" "t" none].length ≤ 1 ∧
    [Answer.mk "" 1 "d" "t" none].length ≤
      (Reader.pool (fun _ _ => some [SpanProposal.noAnswer 1]) "q"
        [⟨⟨"d", "t", none⟩, 1⟩]).length ∧
    ∃ ranked : List Reader.Pooled,
      ranked.Perm (Reader.pool (fun _ _ => some [SpanProposal.noAnswer 1])
        "q" [⟨⟨"d", "t", none⟩, 1⟩]) ∧
      ranked.Pairwise Reader.rankOrder ∧
      [Answer.mk "" 1 "d" "t" none] =
        (ranked.take 1).map Reader.Pooled.ans :=
  C1_read_pools_and_ranks (fun _ _ => some [SpanProposal.noAnswer 1]) "q"
    [⟨⟨"d", "t", none⟩, 1⟩] 1 (by decide) [Answer.mk "" 1 "d" "t" none] rfl

/-- C8: against an empty reachable backing store, `retrieve` returns the
empty sequence without error, `Reader.read` on the empty candidate
sequence returns the empty sequence without error, and `Pipeline.run`
(for the extractive and the FAQ pipeline alike) finishes Done with the
empty answer sequence. -/
theorem C8_empty_store (store : Store) (q : String) (kc ka : Nat)
    (m : ScoringModel) (hreach : store.unreachable = false)
    (hemp : store.docs = []) :
    Retriever.retrieve store q kc = .ok [] ∧
    Reader.read m q [] ka = .ok [] ∧
    Pipeline.run ⟨store, .extractive m⟩ q kc ka = .done [] ∧
    Pipeline.run ⟨store, .faq⟩ q kc ka = .done [] := by
  have h1 : Retriever.retrieve store q kc = .ok [] := by
    simp [Retriever.retrieve, hreach, hemp]
  have h2 : Reader.read m q [] ka = .ok [] := by
    unfold Reader.read
    rw [if_neg (by simp)]
    simp [Reader.pool]
  have h3 : FAQMatcher.faqMatch q [] ka = .ok [] := by
    unfold FAQMatcher.faqMatch
    rw [if_pos (by simp)]
    simp
  refine ⟨h1, h2, ?_, ?_⟩
  · simp [Pipeline.run, Pipeline.runTrace, h1, Pipeline.answerStage, h2]
  · simp [Pipeline.run, Pipeline.runTrace, h1, Pipeline.answerStage, h3]

/-- Witness for C8: the empty-store behaviour evaluated on a concrete
empty store. -/
theorem C8_empty_store_witness :
    Retriever.retrieve ⟨false, [], fun _ _ => 0⟩ "q" 3 = .ok [] ∧
    Reader.read (fun _ _ => none) "q" [] 2 = .ok [] ∧
    Pipeline.run ⟨⟨false, [], fun _ _ => 0⟩, .extractive (fun _ _ => none)⟩
      "q" 3 2 = .done [] ∧
    Pipeline.run ⟨⟨false, [], fun _ _ => 0⟩, .faq⟩ "q" 3 2 = .done [] :=
  C8_empty_store ⟨false, [], fun _ _ => 0⟩ "q" 3 2 (fun _ _ => none) rfl rfl

/-- The Retriever's only failure mode in the model: a `retrieve` error is
always `StoreUnavailable`, raised exactly when the store is unreachable. -/
theorem Retriever.retrieve_error_eq (store : Store) (q : String) (k : Nat)
    (e : QAError) (h : Retriever.retrieve store q k = .error e) :
    e = .storeUnavailable ∧ store.unreachable = true := by
  unfold Retriever.retrieve at h
  split at h
  · exact ⟨(Except.error.inj h).symm, by assumption⟩
  · cases h

/-- C4: whenever the Retriever stage fails, the Pipeline reaches the
Failed state with the Retriever's error unchanged, the Answering stage is
never invoked (the stage trace stops at Retrieving), and for an
unreachable backing store the surfaced error is `StoreUnavailable`. -/
theorem C4_retriever_failure (p : Pipeline) (q : String) (kc ka : Nat)
    (e : QAError) (hfail : Retriever.retrieve p.store q kc = .error e) :
    Pipeline.run p q kc ka = .failed e ∧
    (Pipeline.runTrace p q kc ka).2 = [Stage.retrieving] ∧
    Stage.answering ∉ (Pipeline.runTrace p q kc ka).2 ∧
    (p.store.unreachable = true → e = .storeUnavailable) := by
  have htr : Pipeline.runTrace p q kc ka = (.failed e, [Stage.retrieving]) := by
    unfold Pipeline.runTrace
    rw [hfail]
  refine ⟨?_, ?_, ?_, ?_⟩
  · rw [Pipeline.run, htr]
  · rw [htr]
  · rw [htr]; simp
  · intro _
    exact (Retriever.retrieve_error_eq p.store q kc e hfail).1

/-- Witness for C4: a Pipeline over a concrete unreachable store fails
with `StoreUnavailable` and never enters the Answering stage. -/
theorem C4_retriever_failure_witness :
    Pipeline.run ⟨⟨true, [], fun _ _ => 0⟩, .faq⟩ "q" 1 1
      = .failed .storeUnavailable ∧
    (Pipeline.runTrace ⟨⟨true, [], fun _ _ => 0⟩, .faq⟩ "q" 1 1).2
      = [Stage.retrieving] ∧
    Stage.answering ∉
      (Pipeline.runTrace ⟨⟨true, [], fun _ _ => 0⟩, .faq⟩ "q" 1 1).2 ∧
    ((⟨⟨true, [], fun _ _ => 0⟩, .faq⟩ : Pipeline).store.unreachable = true →
      QAError.storeUnavailable = .storeUnavailable) :=
  C4_retriever_failure ⟨⟨true, [], fun _ _ => 0⟩, .faq⟩ "q" 1 1
    .storeUnavailable rfl

/-- C5: for candidate sequences all of whose candidates carry the
pre-stored answer field, `FAQMatcher.faqMatch` succeeds with exactly one
Answer per candidate in the Retriever's order, truncated to the answer
limit, with the stored answer as the text, confidence copied from the
candidate's relevance score, and offsets always absent. -/
theorem C5_faq_match_spec (q : String) (cs : List Candidate) (ka : Nat)
    (hall : ∀ c ∈ cs, c.doc.answer.isSome) :
    ∃ as, FAQMatcher.faqMatch q cs ka = .ok as ∧
      as.length = min ka cs.length ∧
      ∀ i (hi : i < as.length) (hic : i < cs.length),
        as[i].text = (cs[i].doc.answer).getD "" ∧
        as[i].confidence = cs[i].score ∧
        as[i].documentId = cs[i].doc.id ∧
        as[i].offsets = none := by
  have key : FAQMatcher.faqMatch q cs ka
      = .ok ((cs.take ka).map (fun c =>
        ⟨c.doc.answer.getD "", c.score, c.doc.id, c.doc.text, none⟩)) := by
    unfold FAQMatcher.faqMatch
    rw [if_pos hall]
  refine ⟨_, key, ?_, ?_⟩
  · rw [List.length_map, List.length_take]
  · intro i hi hic
    have hi' : i < (cs.take ka).length := by
      rw [List.length_map] at hi
      exact hi
    rw [List.getElem_map, List.getElem_take]
    exact ⟨rfl, rfl, rfl, rfl⟩

/-- Witness for C5: the FAQ Matcher evaluated on the Scenario C candidate
(question "How is the virus spreading?" with its stored answer), with
answer_limit 1. -/
theorem C5_faq_match_spec_witness :
    ∃ as, FAQMatcher.faqMatch "How is the virus spreading?"
        [⟨⟨"f1", "How is the virus spreading?",
          some "Through respiratory droplets."⟩, 1⟩] 1 = .ok as ∧
      as.length = min 1 ([⟨⟨"f1", "How is the virus spreading?",
          some "Through respiratory droplets."⟩, 1⟩] :
        List Candidate).length ∧
      ∀ i (hi : i < as.length)
        (hic : i < ([⟨⟨"f1", "How is the virus spreading?",
          some "Through respiratory droplets."⟩, 1⟩] :
            List Candidate).length),
        as[i].text = (([⟨⟨"f1", "How is the virus spreading?",
            some "Through respiratory droplets."⟩, 1⟩] :
          List Candidate)[i].doc.answer).getD "" ∧
        as[i].confidence = ([⟨⟨"f1", "How is the virus spreading?",
            some "Through respiratory droplets."⟩, 1⟩] :
          List Candidate)[i].score ∧
        as[i].documentId = ([⟨⟨"f1", "How is the virus spreading?",
            some "Through respiratory droplets."⟩, 1⟩] :
          List Candidate)[i].doc.id ∧
        as[i].offsets = none :=
  C5_faq_match_spec "How is the virus spreading?"
    [⟨⟨"f1", "How is the virus spreading?",
      some "Through respiratory droplets."⟩, 1⟩] 1 (by decide)

/-- Every candidate a successful `retrieve` returns is backed by a stored
document. -/
theorem Retriever.retrieve_ok_mem (store : Store) (q : String) (k : Nat)
    (cs : List Candidate) (h : Retriever.retrieve store q k = .ok cs)
    (c : Candidate) (hc : c ∈ cs) : c.doc ∈ store.docs := by
  unfold Retriever.retrieve at h
  split at h
  · cases h
  · have hcs := Except.ok.inj h
    rw [← hcs] at hc
    have hc' := List.mem_of_mem_take hc
    have hc'' := (List.perm_insertionSort Retriever.candOrder _).mem_iff.mp hc'
    rcases List.mem_map.mp hc'' with ⟨d, hd, rfl⟩
    exact hd

/-- C3: the MissingAnswerField violation is caught when the FAQ Pipeline
is constructed — a store holding a document without the stored-answer
field is rejected with `MissingAnswerField` at construction, a
successfully constructed FAQ Pipeline never fails a run with
`MissingAnswerField` — while calling `FAQMatcher.faqMatch` directly with
a candidate missing the stored-answer field raises `MissingAnswerField`
before any answers are produced. -/
theorem C3_missing_answer_field (store : Store) :
    (∀ p, FAQPipeline store = .ok p →
      ∀ q kc ka, Pipeline.run p q kc ka ≠ .failed .missingAnswerField) ∧
    ((∃ d ∈ store.docs, d.answer = none) →
      FAQPipeline store = .error .missingAnswerField) ∧
    (∀ q cs ka, (∃ c ∈ cs, c.doc.answer = none) →
      FAQMatcher.faqMatch q cs ka = .error .missingAnswerField) := by
  refine ⟨?_, ?_, ?_⟩
  · intro p hp q kc ka
    by_cases hall : ∀ d ∈ store.docs, d.answer.isSome
    · unfold FAQPipeline at hp
      rw [if_pos hall] at hp
      have hp' := Except.ok.inj hp
      subst hp'
      cases hr : Retriever.retrieve store q kc with
      | error e =>
        have he := (Retriever.retrieve_error_eq store q kc e hr).1
        subst he
        simp [Pipeline.run, Pipeline.runTrace, hr]
      | ok cs =>
        have hcand : ∀ c ∈ cs, c.doc.answer.isSome := by
          intro c hc
          exact hall c.doc (Retriever.retrieve_ok_mem store q kc cs hr c hc)
        have hm : FAQMatcher.faqMatch q cs ka
            = .ok ((cs.take ka).map (fun c =>
              ⟨c.doc.answer.getD "", c.score, c.doc.id, c.doc.text, none⟩)) := by
          unfold FAQMatcher.faqMatch
          rw [if_pos hcand]
        simp [Pipeline.run, Pipeline.runTrace, hr, Pipeline.answerStage, hm]
    · unfold FAQPipeline at hp
      rw [if_neg hall] at hp
      cases hp
  · rintro ⟨d, hd, hnone⟩
    unfold FAQPipeline
    rw [if_neg]
    intro hall
    have := hall d hd
    rw [hnone] at this
    cases this
  · rintro q cs ka ⟨c, hc, hnone⟩
    unfold FAQMatcher.faqMatch
    rw [if_neg]
    intro hall
    have := hall c hc
    rw [hnone] at this
    cases this

/-- Witness for C3: a constructed FAQ Pipeline over a concrete one-entry
FAQ store never fails with `MissingAnswerField`; construction over a
store with a missing answer field, and the matcher on a candidate with a
missing answer field, both raise `MissingAnswerField`. -/
theorem C3_missing_answer_field_witness :
    Pipeline.run ⟨⟨false, [⟨"f1", "q1", some "a1"⟩], fun _ _ => 1⟩, .faq⟩
      "q" 1 1 ≠ .failed .missingAnswerField ∧
    FAQPipeline ⟨false, [⟨"d", "t", none⟩], fun _ _ => 1⟩
      = .error .missingAnswerField ∧
    FAQMatcher.faqMatch "q" [⟨⟨"d", "t", none⟩, 1⟩] 1
      = .error .missingAnswerField :=
  ⟨(C3_missing_answer_field ⟨false, [⟨"f1", "q1", some "a1"⟩],
      fun _ _ => 1⟩).1 ⟨⟨false, [⟨"f1", "q1", some "a1"⟩],
      fun _ _ => 1⟩, .faq⟩ rfl "q" 1 1,
   (C3_missing_answer_field ⟨false, [⟨"d", "t", none⟩], fun _ _ => 1⟩).2.1
      ⟨⟨"d", "t", none⟩, by simp, rfl⟩,
   (C3_missing_answer_field ⟨false, [⟨"d", "t", none⟩], fun _ _ => 1⟩).2.2
      "q" [⟨⟨"d", "t", none⟩, 1⟩] 1 ⟨⟨⟨"d", "t", none⟩, 1⟩, by simp, rfl⟩⟩

/-- C6: a "no answer" proposal is pooled like any other proposal; when a
pooled entry has strictly the highest confidence it occupies rank 0 of
the returned sequence; and (for a well-formed scoring model) every
returned Answer with empty answer text has absent offsets. -/
theorem C6_no_answer_first_class (m : ScoringModel) (q : String)
    (cs : List Candidate) (k : Nat) :
    (∀ i c ps conf, cs[i]? = some c → m q c.doc.text = some ps →
      SpanProposal.noAnswer conf ∈ ps →
      (⟨⟨"", conf, c.doc.id, c.doc.text, none⟩, i⟩ : Reader.Pooled)
        ∈ Reader.pool m q cs) ∧
    (∀ p as, p ∈ Reader.pool m q cs →
      (∀ r ∈ Reader.pool m q cs, r ≠ p →
        r.ans.confidence < p.ans.confidence) →
      0 < k → Reader.read m q cs k = .ok as → as.head? = some p.ans) ∧
    (ValidModel m → ∀ as, Reader.read m q cs k = .ok as →
      ∀ a ∈ as, a.text = "" → a.offsets = none) := by
  refine ⟨?_, ?_, ?_⟩
  · intro i c ps conf hcs hm hmem
    exact (Reader.mem_pool_iff m q cs _).mpr
      ⟨i, c, ps, hcs, hm, .noAnswer conf, hmem, rfl⟩
  · intro p as hp hmax hk hok
    have has := Reader.read_eq_ok m q cs k as hok
    have hperm := List.perm_insertionSort Reader.rankOrder (Reader.pool m q cs)
    have hsort := List.sorted_insertionSort Reader.rankOrder (Reader.pool m q cs)
    have hpmem : p ∈ List.insertionSort Reader.rankOrder (Reader.pool m q cs) :=
      hperm.mem_iff.mpr hp
    cases hsorted : List.insertionSort Reader.rankOrder (Reader.pool m q cs) with
    | nil => rw [hsorted] at hpmem; cases hpmem
    | cons s t =>
      rw [hsorted] at hpmem hperm hsort has
      have hs_mem : s ∈ Reader.pool m q cs :=
        hperm.mem_iff.mp (List.mem_cons_self s t)
      have hsp : s = p := by
        by_contra hne
        have h1 : s.ans.confidence < p.ans.confidence := hmax s hs_mem hne
        have hpt : p ∈ t := by
          rcases List.mem_cons.mp hpmem with h' | h'
          · exact absurd h'.symm hne
          · exact h'
        have h2 : Reader.rankOrder s p :=
          (List.pairwise_cons.mp hsort).1 p hpt
        rcases h2 with h2 | ⟨h2, _⟩
        · exact absurd h1 (lt_asymm h2)
        · rw [h2] at h1; exact absurd h1 (lt_irrefl _)
      cases k with
      | zero => omega
      | succ k' =>
        rw [has, List.take_succ_cons, List.map_cons, List.head?_cons, hsp]
  · intro hv as hok a ha htext
    have has := Reader.read_eq_ok m q cs k as hok
    rw [has] at ha
    rcases List.mem_map.mp ha with ⟨pe, hpe, rfl⟩
    have hpool : pe ∈ Reader.pool m q cs :=
      (List.perm_insertionSort Reader.rankOrder
        (Reader.pool m q cs)).mem_iff.mp (List.mem_of_mem_take hpe)
    rcases (Reader.mem_pool_iff m q cs pe).mp hpool with
      ⟨i, c, ps, hcs, hm, pr, hpr, hpe'⟩
    cases pr with
    | noAnswer conf => rw [hpe']; rfl
    | span sa sb conf =>
      rw [hpe'] at htext
      exact absurd htext (hv q c.doc.text ps hm sa sb conf hpr)

/-- Witness for C6: a single candidate whose passage yields one "no
answer" proposal of confidence 1 — it is pooled, occupies rank 0, and the
returned empty-text Answer has absent offsets. -/
theorem C6_no_answer_first_class_witness :
    ((⟨⟨"", 1, "d", "t", none⟩, 0⟩ : Reader.Pooled)
      ∈ Reader.pool (fun _ _ => some [SpanProposal.noAnswer 1]) "q"
        [⟨⟨"d", "t", none⟩, 1⟩]) ∧
    ([Answer.mk "" 1 "d" "t" none].head?
      = some (Reader.Pooled.mk ⟨"", 1, "d", "t", none⟩ 0).ans) ∧
    (∀ a ∈ [Answer.mk "" 1 "d" "t" none], a.text = "" → a.offsets = none) :=
  ⟨(C6_no_answer_first_class (fun _ _ => some [SpanProposal.noAnswer 1])
      "q" [⟨⟨"d", "t", none⟩, 1⟩] 1).1 0 ⟨⟨"d", "t", none⟩, 1⟩
      [SpanProposal.noAnswer 1] 1 rfl rfl (by simp),
   (C6_no_answer_first_class (fun _ _ => some [SpanProposal.noAnswer 1])
      "q" [⟨⟨"d", "t", none⟩, 1⟩] 1).2.1 ⟨⟨"", 1, "d", "t", none⟩, 0⟩
      [Answer.mk "" 1 "d" "t" none] (by decide) (by decide) (by decide) rfl,
   (C6_no_answer_first_class (fun _ _ => some [SpanProposal.noAnswer 1])
      "q" [⟨⟨"d", "t", none⟩, 1⟩] 1).2.2
      (by
        intro q passage ps h a b conf hmem
        cases Option.some.inj h
        simp at hmem)
      [Answer.mk "" 1 "d" "t" none] rfl⟩

/-- C9: `Reader.read` fails with `ReaderExhausted` exactly when the
candidate sequence is non-empty and the scoring model fails on every
passage; if at least one passage succeeds the call succeeds; passages the
model failed on contribute nothing to the pool; and every proposal of a
surviving passage is in the pool (remaining passages are still
processed). -/
theorem C9_partial_failure (m : ScoringModel) (q : String)
    (cs : List Candidate) (k : Nat) :
    (Reader.read m q cs k = .error .readerExhausted ↔
      cs ≠ [] ∧ ∀ c ∈ cs, m q c.doc.text = none) ∧
    ((∃ c ∈ cs, m q c.doc.text ≠ none) →
      ∃ as, Reader.read m q cs k = .ok as) ∧
    (∀ i, Reader.taskResult m q cs i = none →
      ∀ p ∈ Reader.pool m q cs, p.rank ≠ i) ∧
    (∀ i c ps, cs[i]? = some c → m q c.doc.text = some ps →
      ∀ pr ∈ ps, (⟨Reader.answerOf c pr, i⟩ : Reader.Pooled)
        ∈ Reader.pool m q cs) := by
  refine ⟨?_, ?_, ?_, ?_⟩
  · by_cases hc : cs ≠ [] ∧ ∀ c ∈ cs, m q c.doc.text = none
    · refine iff_of_true ?_ hc
      unfold Reader.read
      rw [if_pos hc]
    · refine iff_of_false ?_ hc
      unfold Reader.read
      rw [if_neg hc]
      simp
  · rintro ⟨c, hc, hne⟩
    have hcond : ¬(cs ≠ [] ∧ ∀ c ∈ cs, m q c.doc.text = none) := by
      rintro ⟨-, hall⟩
      exact hne (hall c hc)
    exact ⟨_, by unfold Reader.read; rw [if_neg hcond]⟩
  · intro i hi p hp hrank
    rcases (Reader.mem_pool_iff m q cs p).mp hp with
      ⟨j, c, ps, hcs, hm, pr, hpr, hpe⟩
    have : p.rank = j := by rw [hpe]
    rw [this] at hrank
    subst hrank
    rw [Reader.taskResult, hcs] at hi
    simp [hm] at hi
  · intro i c ps hcs hm pr hpr
    exact (Reader.mem_pool_iff m q cs _).mpr ⟨i, c, ps, hcs, hm, pr, hpr, rfl⟩

/-- Witness for C9: a two-candidate call in which the model fails on the
first passage and succeeds on the second — the call succeeds, the failed
passage contributes nothing, the surviving proposal is pooled — together
with the `ReaderExhausted` characterisation at these inputs. -/
theorem C9_partial_failure_witness :
    (Reader.read (fun _ t => if t = "bad" then none
        else some [SpanProposal.noAnswer 1]) "q"
        [⟨⟨"d1", "bad", none⟩, 2⟩, ⟨⟨"d2", "good", none⟩, 1⟩] 5
      = .error .readerExhausted ↔
      ([⟨⟨"d1", "bad", none⟩, 2⟩, ⟨⟨"d2", "good", none⟩, 1⟩] :
        List Candidate) ≠ [] ∧
      ∀ c ∈ ([⟨⟨"d1", "bad", none⟩, 2⟩, ⟨⟨"d2", "good", none⟩, 1⟩] :
        List Candidate),
        (fun _ t => if t = "bad" then none
          else some [SpanProposal.noAnswer 1]) "q" c.doc.text = none) ∧
    (∃ as, Reader.read (fun _ t => if t = "bad" then none
        else some [SpanProposal.noAnswer 1]) "q"
        [⟨⟨"d1", "bad", none⟩, 2⟩, ⟨⟨"d2", "good", none⟩, 1⟩] 5 = .ok as) ∧
    (∀ p ∈ Reader.pool (fun _ t => if t = "bad" then none
        else some [SpanProposal.noAnswer 1]) "q"
        [⟨⟨"d1", "bad", none⟩, 2⟩, ⟨⟨"d2", "good", none⟩, 1⟩],
      p.rank ≠ 0) ∧
    ((⟨Reader.answerOf ⟨⟨"d2", "good", none⟩, 1⟩ (SpanProposal.noAnswer 1),
        1⟩ : Reader.Pooled)
      ∈ Reader.pool (fun _ t => if t = "bad" then none
        else some [SpanProposal.noAnswer 1]) "q"
        [⟨⟨"d1", "bad", none⟩, 2⟩, ⟨⟨"d2", "good", none⟩, 1⟩]) := by
  have h := C9_partial_failure (fun _ t => if t = "bad" then none
    else some [SpanProposal.noAnswer 1]) "q"
    [⟨⟨"d1", "bad", none⟩, 2⟩, ⟨⟨"d2", "good", none⟩, 1⟩] 5
  exact ⟨h.1,
    h.2.1 ⟨⟨⟨"d2", "good", none⟩, 1⟩, by decide, by decide⟩,
    h.2.2.1 0 (by decide),
    h.2.2.2 1 ⟨⟨"d2", "good", none⟩, 1⟩ [SpanProposal.noAnswer 1] rfl rfl
      (SpanProposal.noAnswer 1) (by simp)⟩

/-- Looking a candidate rank up in the completion log of any task
completion order that contains it yields that rank's own scoring
result. -/
theorem Reader.lookup_completionLog (m : ScoringModel) (q : String)
    (cs : List Candidate) (order : List Nat) (i : Nat) (h : i ∈ order) :
    List.lookup i (Reader.completionLog m q cs order)
      = some (Reader.taskResult m q cs i) := by
  induction order with
  | nil => cases h
  | cons j t ih =>
    unfold Reader.completionLog at ih ⊢
    rw [List.map_cons]
    by_cases hij : i = j
    · subst hij
      simp [List.lookup]
    · have hb : (i == j) = false := beq_eq_false_iff_ne.mpr hij
      simp only [List.lookup, hb]
      rcases List.mem_cons.mp h with h' | h'
      · exact absurd h' hij
      · exact ih h'

/-- The pool gathered from parallel scoring tasks equals the sequential
pool for every completion order of the tasks. -/
theorem Reader.gatherPool_eq (m : ScoringModel) (q : String)
    (cs : List Candidate) (order : List Nat)
    (hperm : order.Perm (List.range cs.length)) :
    Reader.gatherPool m q cs order = Reader.pool m q cs := by
  unfold Reader.gatherPool Reader.pool
  rw [List.flatMap, List.flatMap]
  congr 1
  apply List.map_congr_left
  intro i hi
  rw [Reader.lookup_completionLog m q cs order i (hperm.mem_iff.mpr hi)]

/-- C7: running the Pipeline twice with identical query, candidate_limit
and answer_limit against the same (unchanged) backing store yields the
same outcome, and the Reader's aggregated answer list is the same for
every completion order of the parallel per-passage scoring tasks. -/
theorem C7_determinism (m : ScoringModel) (q : String) (cs : List Candidate)
    (k : Nat) (order : List Nat) (p : Pipeline) (q' : String) (kc ka : Nat)
    (hperm : order.Perm (List.range cs.length)) :
    Reader.parallelRead m q cs k order = Reader.read m q cs k ∧
    ∀ r1 r2 : RunOutcome, r1 = Pipeline.run p q' kc ka →
      r2 = Pipeline.run p q' kc ka → r1 = r2 := by
  constructor
  · unfold Reader.parallelRead Reader.read
    rw [Reader.gatherPool_eq m q cs order hperm]
  · rintro r1 r2 rfl rfl
    rfl

/-- Witness for C7: the parallel Reader with the reversed completion
order on a concrete two-candidate call agrees with the sequential Reader,
and two identical runs of a concrete Pipeline agree. -/
theorem C7_determinism_witness :
    Reader.parallelRead (fun _ _ => some [SpanProposal.noAnswer 1]) "q"
        [⟨⟨"d1", "t1", none⟩, 2⟩, ⟨⟨"d2", "t2", none⟩, 1⟩] 2 [1, 0]
      = Reader.read (fun _ _ => some [SpanProposal.noAnswer 1]) "q"
        [⟨⟨"d1", "t1", none⟩, 2⟩, ⟨⟨"d2", "t2", none⟩, 1⟩] 2 ∧
    ∀ r1 r2 : RunOutcome,
      r1 = Pipeline.run ⟨⟨false, [⟨"d", "t", none⟩], fun _ _ => 1⟩, .faq⟩
        "q" 1 1 →
      r2 = Pipeline.run ⟨⟨false, [⟨"d", "t", none⟩], fun _ _ => 1⟩, .faq⟩
        "q" 1 1 → r1 = r2 :=
  C7_determinism (fun _ _ => some [SpanProposal.noAnswer 1]) "q"
    [⟨⟨"d1", "t1", none⟩, 2⟩, ⟨⟨"d2", "t2", none⟩, 1⟩] 2 [1, 0]
    ⟨⟨false, [⟨"d", "t", none⟩], fun _ _ => 1⟩, .faq⟩ "q" 1 1 (by decide)

/-- C10: the Result Formatter is a pure function of its input — with
detail level `minimal` the rendering depends only on each answer's text
and context snippet, with `all` it depends only on the answers' field
values (text, confidence, document identifier, context, offsets), and
`all` genuinely renders the additional fields: two answer lists that
`minimal` cannot distinguish are distinguished by `all`. -/
theorem C10_format_pure :
    (∀ as bs : List Answer,
      as.map (fun a => (a.text, a.context))
        = bs.map (fun a => (a.text, a.context)) →
      Formatter.format as .minimal = Formatter.format bs .minimal) ∧
    (∀ as bs : List Answer,
      as.map (fun a => (a.text, a.confidence, a.documentId, a.context,
          a.offsets))
        = bs.map (fun a => (a.text, a.confidence, a.documentId, a.context,
          a.offsets)) →
      Formatter.format as .all = Formatter.format bs .all) ∧
    (∃ as bs : List Answer,
      as.map (fun a => (a.text, a.context))
        = bs.map (fun a => (a.text, a.context)) ∧
      Formatter.format as .all ≠ Formatter.format bs .all) := by
  refine ⟨?_, ?_, ?_⟩
  · intro as bs h
    unfold Formatter.format
    congr 1
    have key : ∀ xs : List Answer,
        xs.map (Formatter.renderAnswer .minimal)
          = (xs.map (fun a => (a.text, a.context))).map
            (fun p => "answer: " ++ p.1 ++ "; context: " ++ p.2) := by
      intro xs
      rw [List.map_map]
      rfl
    rw [key, key, h]
  · intro as bs h
    unfold Formatter.format
    congr 1
    have key : ∀ xs : List Answer,
        xs.map (Formatter.renderAnswer .all)
          = (xs.map (fun a => (a.text, a.confidence, a.documentId,
              a.context, a.offsets))).map
            (fun p => "answer: " ++ p.1 ++ "; context: " ++ p.2.2.2.1 ++
              "; confidence: " ++ toString p.2.1 ++
              "; document: " ++ p.2.2.1 ++
              "; offsets: " ++ Formatter.renderOffsets p.2.2.2.2) := by
      intro xs
      rw [List.map_map]
      rfl
    rw [key, key, h]
  · refine ⟨[⟨"a", 1, "d1", "c", none⟩], [⟨"a", 1, "d2", "c", none⟩],
      rfl, ?_⟩
    decide

/-- Witness for C10: the frame conditions applied at concrete answer
lists — `minimal` agrees on lists agreeing on text and context, `all`
agrees on equal projections. -/
theorem C10_format_pure_witness :
    Formatter.format [Answer.mk "a" 1 "d1" "c" none] .minimal
      = Formatter.format [Answer.mk "a" 2 "d2" "c" none] .minimal ∧
    Formatter.format [Answer.mk "a" 1 "d1" "c" none] .all
      = Formatter.format [Answer.mk "a" 1 "d1" "c" none] .all :=
  ⟨C10_format_pure.1 [Answer.mk "a" 1 "d1" "c" none]
      [Answer.mk "a" 2 "d2" "c" none] rfl,
   C10_format_pure.2.1 [Answer.mk "a" 1 "d1" "c" none]
      [Answer.mk "a" 1 "d1" "c" none] rfl⟩
